import Mathlib

/-!
Shallow embedding of the RGGH/license-demo trust protocol:
the license server's `issue_trial` (src/license-server/src/main.rs) and the
consumer's `verify_trial_token`, `check_grace_period`, `check_revocation`
(src/trial-binary/src/main.rs).

Modelling conventions:
* Machine integers (`u64`) are `Nat`; the repository is run with `cargo run`
  (debug build), where an underflowing/overflowing arithmetic operation
  panics, so each `u64` subtraction is modelled by `checkedSub` returning
  `Option Nat` (`none` = panic) and the `u64` addition in `issue_trial` is
  guarded by `now + duration < 2^64`.
* JSON serialization via `serde_json` is modelled at the JSON-value level:
  `Json` is the value tree, `encodeTrialToken` is the `#[derive(Serialize)]`
  field mapping (fields in declaration order) and `decodeTrialToken` the
  `#[derive(Deserialize)]` field extraction. The text layer
  (`serde_json::to_string` / `from_str`) is the serde library's faithful
  transport of this value and is outside the repository's code.
* The ed25519 primitives are abstract: the consumer's
  `VerifyingKey::verify` is a parameter `V : Json → List Nat → Bool`
  (message value, signature bytes), the server's `SigningKey::sign` a
  parameter `S : Json → List Nat`. Decoding the embedded 32-byte
  `PUBLIC_KEY_BYTES` constant (`VerifyingKey::from_bytes`) is a fixed
  outcome independent of all inputs; the constant is a key printed by the
  server, so it decodes successfully and that step is elided.
* `hex::decode`, `str::trim` and `str::parse::<u64>` are modelled
  byte-faithfully (`hexDecode`, `rustTrim`, `parseU64`); `hex::decode`
  accepts both upper- and lower-case hex digits, as the `hex` crate does.
* The consumer's persisted `.last_license_check` file is `Option String`
  (`none` = `fs::read_to_string` failed); `fs::write` in
  `check_revocation` stores the decimal rendering of `now` (its ignored
  error is modelled as success).
-/

set_option maxRecDepth 16384

namespace LicenseDemo

/-- `TrialToken` struct, identical in both crates
(`user_id`, `issued_at`, `expires_at`). -/
structure TrialToken where
  user_id : String
  issued_at : Nat
  expires_at : Nat
deriving DecidableEq, Repr

/-- JSON values, the target of `serde_json` serialization.  `num` is a `Nat`
since the only numbers this program serializes are `u64` fields. -/
inductive Json where
  | null : Json
  | bool (b : Bool) : Json
  | num (n : Nat) : Json
  | str (s : String) : Json
  | arr (elems : List Json) : Json
  | obj (fields : List (String × Json)) : Json

/-- `u64` subtraction under the debug (`cargo run`) build: panics on
underflow, modelled as `none`. -/
def checkedSub (a b : Nat) : Option Nat :=
  if b ≤ a then some (a - b) else none

/-- `serde_json::to_string(&token)` for `#[derive(Serialize)] TrialToken`,
at the JSON-value level: an object with the three fields in declaration
order. -/
def encodeTrialToken (t : TrialToken) : Json :=
  Json.obj [("user_id", Json.str t.user_id),
            ("issued_at", Json.num t.issued_at),
            ("expires_at", Json.num t.expires_at)]

/-- First binding of `key` in a serde-style field list. -/
def jsonLookup (fields : List (String × Json)) (key : String) : Option Json :=
  match fields with
  | [] => none
  | (k, v) :: rest => if k = key then some v else jsonLookup rest key

/-- serde's string extraction for a `String` field. -/
def asStr : Json → Option String
  | Json.str s => some s
  | _ => none

/-- serde's number extraction for a `u64` field: a JSON number that fits in
`u64`. -/
def asU64 : Json → Option Nat
  | Json.num n => if n < 2 ^ 64 then some n else none
  | _ => none

/-- `serde_json::from_str::<TrialToken>` at the JSON-value level
(`#[derive(Deserialize)]`): requires an object carrying a string
`user_id` and `u64` `issued_at` / `expires_at` fields. -/
def decodeTrialToken (j : Json) : Option TrialToken :=
  match j with
  | Json.obj fields => do
      let u ← jsonLookup fields "user_id" >>= asStr
      let i ← jsonLookup fields "issued_at" >>= asU64
      let e ← jsonLookup fields "expires_at" >>= asU64
      pure ⟨u, i, e⟩
  | _ => none

/-- One hex digit, as the `hex` crate decodes it: `0-9`, `a-f` and `A-F`
are all accepted. -/
def hexDigitVal (c : Char) : Option Nat :=
  if '0' ≤ c ∧ c ≤ '9' then some (c.toNat - '0'.toNat)
  else if 'a' ≤ c ∧ c ≤ 'f' then some (c.toNat - 'a'.toNat + 10)
  else if 'A' ≤ c ∧ c ≤ 'F' then some (c.toNat - 'A'.toNat + 10)
  else none

/-- `hex::decode` over a character list: fails on odd length or a non-hex
character, otherwise pairs of digits become bytes. -/
def hexDecodeList : List Char → Option (List Nat)
  | [] => some []
  | [_] => none
  | hi :: lo :: rest => do
      let h ← hexDigitVal hi
      let l ← hexDigitVal lo
      let r ← hexDecodeList rest
      pure ((16 * h + l) :: r)

/-- `hex::decode(s)`. -/
def hexDecode (s : String) : Option (List Nat) :=
  hexDecodeList s.data

/-- `str::trim`: strip leading and trailing whitespace. -/
def rustTrim (s : String) : String :=
  String.mk (((s.data.dropWhile Char.isWhitespace).reverse.dropWhile
    Char.isWhitespace).reverse)

/-- Digit loop of `u64::from_str`: every character must be an ASCII digit. -/
def parseU64Core : List Char → Nat → Option Nat
  | [], acc => some acc
  | c :: rest, acc =>
      if '0' ≤ c ∧ c ≤ '9' then
        parseU64Core rest (acc * 10 + (c.toNat - '0'.toNat))
      else none

/-- `str::parse::<u64>`: an optional leading `+`, at least one ASCII digit,
and the value must fit in `u64` (Rust's per-step checked arithmetic is
equivalent, over `Nat`, to a final range check). -/
def parseU64 (s : String) : Option Nat :=
  let cs := match s.data with
    | '+' :: rest => rest
    | cs => cs
  match cs with
  | [] => none
  | _ =>
      match parseU64Core cs 0 with
      | some n => if n < 2 ^ 64 then some n else none
      | none => none

/-- `GRACE_PERIOD_HOURS` (trial-binary). -/
def GRACE_PERIOD_HOURS : Nat := 24

/-- The `Err` outcomes of `check_grace_period`, one constructor per
distinct error message in the source. -/
inductive GraceErr where
  /-- `LICENSE CHECK REQUIRED: Last online check was {h} hours ago`,
  carrying `hours_since_check`. -/
  | graceExpired (hoursSinceCheck : Nat) : GraceErr
  /-- `LICENSE CHECK REQUIRED: Could not read last check timestamp`
  (file present but unparseable). -/
  | unparseableTimestamp : GraceErr
  /-- `LICENSE CHECK REQUIRED: No previous online check found`
  (file read failed). -/
  | noPreviousCheck : GraceErr
deriving DecidableEq, Repr

/-- `check_grace_period` (trial-binary, lines 70-95).  `file` is the
content of `.last_license_check` (`none` = `fs::read_to_string` failed),
`now` is `current_timestamp()`.  The outer `none` is the debug-build panic
of the `u64` subtraction `now - last_check`. -/
def check_grace_period (file : Option String) (now : Nat) :
    Option (Except GraceErr Bool) :=
  match file with
  | none => some (Except.error GraceErr.noPreviousCheck)
  | some content =>
      match parseU64 (rustTrim content) with
      | some last_check =>
          (checkedSub now last_check).map (fun diff =>
            let hours_since_check := diff / 3600
            if hours_since_check ≤ GRACE_PERIOD_HOURS then
              Except.ok true
            else
              Except.error (GraceErr.graceExpired hours_since_check))
      | none => some (Except.error GraceErr.unparseableTimestamp)

/-- The three ways the revocation round trip to the license server can go,
as seen by `check_revocation`: `reqwest::get` fails (`unreachable`), the
body is not JSON (`malformed`), or a JSON value `data` is decoded. -/
inductive AuthorityResponse where
  | unreachable : AuthorityResponse
  | malformed : AuthorityResponse
  | response (data : Json) : AuthorityResponse

/-- `data["revoked"].as_bool()`: `some b` iff `data` is an object whose
first `"revoked"` binding is a JSON boolean. -/
def jsonGetBool (data : Json) (key : String) : Option Bool :=
  match data with
  | Json.obj fields =>
      match jsonLookup fields key with
      | some (Json.bool b) => some b
      | _ => none
  | _ => none

/-- The `Err` outcomes of the consumer's `check_revocation`. -/
inductive RevErr where
  /-- `LICENSE REVOKED: Your trial has been revoked by the license
  server.` -/
  | revokedByServer : RevErr
  /-- A `check_grace_period` error, propagated unchanged. -/
  | grace (e : GraceErr) : RevErr
deriving DecidableEq, Repr

/-- Lift a `check_grace_period` result into `check_revocation`'s error
type. -/
def liftGrace (r : Option (Except GraceErr Bool)) :
    Option (Except RevErr Bool) :=
  r.map (fun x => match x with
    | Except.ok b => Except.ok b
    | Except.error e => Except.error (RevErr.grace e))

/-- `check_revocation` (trial-binary, lines 97-128).  Returns the decision
together with the `.last_license_check` file content after the call: on a
decoded response the code first executes
`fs::write(LAST_CHECK_FILE, current_timestamp().to_string())` (its `Result`
is discarded; the write is modelled as succeeding) and only then tests
`data["revoked"].as_bool().unwrap_or(false)`; on a malformed response or a
network error it falls back to `check_grace_period` and leaves the file
alone. -/
def check_revocation (resp : AuthorityResponse) (file : Option String)
    (now : Nat) : Option (Except RevErr Bool) × Option String :=
  match resp with
  | AuthorityResponse.response data =>
      let file' := some (Nat.repr now)
      if (jsonGetBool data "revoked").getD false then
        (some (Except.error RevErr.revokedByServer), file')
      else
        (some (Except.ok true), file')
  | AuthorityResponse.malformed =>
      (liftGrace (check_grace_period file now), file)
  | AuthorityResponse.unreachable =>
      (liftGrace (check_grace_period file now), file)

/-- The `Err` outcomes of `verify_trial_token`, one constructor per
distinct error message in the source (the `Invalid public key` arm is
elided: the embedded server-printed key constant decodes). -/
inductive VerifyErr where
  /-- `Invalid signature hex` (`hex::decode` failed). -/
  | invalidSignatureHex : VerifyErr
  /-- `Signature must be 64 bytes` (`try_into::<[u8; 64]>` failed). -/
  | signatureNot64Bytes : VerifyErr
  /-- `INVALID TOKEN: Signature verification failed!` (the ed25519 check
  rejected; the AuthenticityError). -/
  | signatureVerificationFailed : VerifyErr
  /-- `Invalid token format` (`serde_json::from_str` failed). -/
  | invalidTokenFormat : VerifyErr
  /-- `TRIAL EXPIRED: Your trial expired {d} days ago`, carrying
  `days_ago`. -/
  | trialExpired (daysAgo : Nat) : VerifyErr
deriving DecidableEq, Repr

/-- `verify_trial_token` (trial-binary, lines 28-68).  `V` abstracts
`verifying_key.verify` under the embedded public key (message value,
signature bytes); `tokenMsg` is the token text at the JSON-value level
(both the byte string the signature covers and the value serde parses);
`signature_hex` is the signature file text.  The outer `none` is a
debug-build panic of one of the two `u64` subtractions in the expiry
arithmetic.  Mirrors the source order: trim and hex-decode the signature,
require 64 bytes, run the cryptographic check, only then parse the token
and test `now > expires_at`; an expired token reports
`(now - expires_at) / (24*60*60)` days, a live one computes
`(expires_at - now) / (24*60*60)` days remaining (printed only) and
returns the token. -/
def verify_trial_token (V : Json → List Nat → Bool) (tokenMsg : Json)
    (signature_hex : String) (now : Nat) :
    Option (Except VerifyErr TrialToken) :=
  match hexDecode (rustTrim signature_hex) with
  | none => some (Except.error VerifyErr.invalidSignatureHex)
  | some sig_bytes =>
      if sig_bytes.length = 64 then
        if V tokenMsg sig_bytes then
          match decodeTrialToken tokenMsg with
          | none => some (Except.error VerifyErr.invalidTokenFormat)
          | some token =>
              if token.expires_at < now then
                (checkedSub now token.expires_at).map (fun d =>
                  Except.error (VerifyErr.trialExpired (d / (24 * 60 * 60))))
              else
                (checkedSub token.expires_at now).map (fun s =>
                  let _days_remaining := s / (24 * 60 * 60)
                  Except.ok token)
        else
          some (Except.error VerifyErr.signatureVerificationFailed)
      else
        some (Except.error VerifyErr.signatureNot64Bytes)

/-- The 14-day trial duration in seconds (`14 * 24 * 60 * 60`,
license-server line 65). -/
def TRIAL_DURATION : Nat := 14 * 24 * 60 * 60

/-- `issue_trial` (license-server, lines 57-79).  `S` abstracts
`signing_key.sign` over the canonical encoding; `now` is
`current_timestamp()`.  Builds the token with `issued_at = now`,
`expires_at = now + TRIAL_DURATION`, encodes it and signs that exact
encoding; the returned pair is the response's `(token, signature)`.
`none` is the debug-build panic of the `u64` addition. -/
def issue_trial (S : Json → List Nat) (now : Nat) (user_id : String) :
    Option (Json × List Nat) :=
  if now + TRIAL_DURATION < 2 ^ 64 then
    let token : TrialToken :=
      { user_id := user_id, issued_at := now,
        expires_at := now + TRIAL_DURATION }
    let token_json := encodeTrialToken token
    some (token_json, S token_json)
  else none

/-- The consumer `main`'s decision pipeline after the two artifact files
are read (trial-binary, lines 159-177): `verify_trial_token`, then
`check_revocation`; any `Err` exits non-zero (`some false`), otherwise the
application runs (`some true`).  `none` is a panic inside either step. -/
def consumer_decision (V : Json → List Nat → Bool) (tokenMsg : Json)
    (signature_hex : String) (resp : AuthorityResponse)
    (file : Option String) (now : Nat) : Option Bool :=
  match verify_trial_token V tokenMsg signature_hex now with
  | none => none
  | some (Except.error _) => some false
  | some (Except.ok token) =>
      match (check_revocation resp file now).1 with
      | none => none
      | some (Except.error _) => some false
      | some (Except.ok _) =>
          let _user := token.user_id
          some true

/-! ## Helper lemmas -/

theorem checkedSub_eq_of_le {a b : Nat} (h : b ≤ a) :
    checkedSub a b = some (a - b) := by
  simp [checkedSub, h]

theorem verify_trial_token_isSome (V : Json → List Nat → Bool)
    (tokenMsg : Json) (signature_hex : String) (now : Nat) :
    (verify_trial_token V tokenMsg signature_hex now).isSome := by
  unfold verify_trial_token
  cases h : hexDecode (rustTrim signature_hex) with
  | none => rfl
  | some sig_bytes =>
    dsimp only
    by_cases h64 : sig_bytes.length = 64
    · rw [if_pos h64]
      by_cases hV : V tokenMsg sig_bytes
      · rw [if_pos hV]
        cases ht : decodeTrialToken tokenMsg with
        | none => rfl
        | some token =>
          dsimp only
          by_cases he : token.expires_at < now
          · rw [if_pos he, checkedSub_eq_of_le (Nat.le_of_lt he)]
            rfl
          · rw [if_neg he, checkedSub_eq_of_le (Nat.le_of_not_lt he)]
            rfl
      · rw [if_neg hV]
        rfl
    · rw [if_neg h64]
      rfl

/-! ## C1 -/

/-- C1, counterexample to the claim as stated: with no stored
`.last_license_check` and `now = 5`, a reachable authority reporting
`revoked = true` is denied, yet the stored timestamp is changed from
absent to `"5"` — the code writes the file before testing the revoked
flag, so the reachable-and-revoked outcome does not leave
`LastOnlineCheck` unchanged. -/
theorem C1_counterexample :
    (check_revocation
        (AuthorityResponse.response (Json.obj [("revoked", Json.bool true)]))
        none 5).1
      = some (Except.error RevErr.revokedByServer)
    ∧ (check_revocation
        (AuthorityResponse.response (Json.obj [("revoked", Json.bool true)]))
        none 5).2
      = some "5" :=
  ⟨rfl, rfl⟩

/-- C1, amended: during a revocation check the consumer records
`LastOnlineCheck = now` exactly when the authority is reachable and its
response decodes — regardless of the revoked flag — and leaves the stored
timestamp unchanged on a malformed response and on an unreachable
authority. -/
theorem C1_lastCheck_update (file : Option String) (now : Nat)
    (data : Json) :
    (check_revocation AuthorityResponse.unreachable file now).2 = file
    ∧ (check_revocation AuthorityResponse.malformed file now).2 = file
    ∧ (check_revocation (AuthorityResponse.response data) file now).2
        = some (Nat.repr now) := by
  refine ⟨rfl, rfl, ?_⟩
  unfold check_revocation
  dsimp only
  by_cases h : (jsonGetBool data "revoked").getD false
  · rw [if_pos h]
  · rw [if_neg h]

/-! ## C2 -/

/-- C2, counterexample to the claim as stated: with stored timestamp `0`
and `now = 86401` the elapsed time strictly exceeds the 24-hour window
(86400 s), yet `check_grace_period` admits, because the code compares
whole hours: `86401 / 3600 = 24 ≤ 24`. -/
theorem C2_counterexample :
    86400 < 86401 - 0
    ∧ check_grace_period (some "0") 86401 = some (Except.ok true) :=
  ⟨by norm_num, rfl⟩

/-- C2, amended: for a stored timestamp `last` (with `last ≤ now`), the
grace check admits exactly when `(now - last) / 3600 ≤ 24`, i.e. when
`now - last < 90000` (24 h 59 m 59 s), and denies — reporting the whole
elapsed hours — when `now - last ≥ 90000`; the boundary
`now - last = 86400` is admitted. -/
theorem C2_grace_boundary (s : String) (last now : Nat)
    (hp : parseU64 (rustTrim s) = some last) (hle : last ≤ now) :
    (now - last < 90000 →
      check_grace_period (some s) now = some (Except.ok true))
    ∧ (90000 ≤ now - last →
      check_grace_period (some s) now
        = some (Except.error (GraceErr.graceExpired ((now - last) / 3600))))
    ∧ (now - last = 86400 →
      check_grace_period (some s) now = some (Except.ok true)) := by
  unfold check_grace_period
  dsimp only
  rw [hp]
  dsimp only
  rw [checkedSub_eq_of_le hle]
  dsimp only [Option.map, GRACE_PERIOD_HOURS]
  refine ⟨fun h => ?_, fun h => ?_, fun h => ?_⟩
  · rw [if_pos]
    have h25 : (now - last) / 3600 < 25 :=
      (Nat.div_lt_iff_lt_mul (by norm_num)).mpr (by omega)
    omega
  · rw [if_neg]
    have h25 : 25 ≤ (now - last) / 3600 :=
      (Nat.le_div_iff_mul_le (by norm_num)).mpr (by omega)
    omega
  · rw [if_pos]
    rw [h]

/-- C2, witness: the boundary 86400 s is admitted and 90000 s is denied
with 25 elapsed hours reported. -/
theorem C2_grace_boundary_witness :
    check_grace_period (some "0") 86400 = some (Except.ok true)
    ∧ check_grace_period (some "0") 90000
        = some (Except.error (GraceErr.graceExpired 25)) :=
  ⟨(C2_grace_boundary "0" 0 86400 rfl (by norm_num)).2.2 rfl,
   (C2_grace_boundary "0" 0 90000 rfl (by norm_num)).2.1 (by norm_num)⟩

/-! ## C10 -/

/-- C10: if the `.last_license_check` file exists but its trimmed content
does not parse as a `u64`, `check_grace_period` deterministically denies
with the license-check-required error for an unreadable timestamp — no
admit, no panic. -/
theorem C10_unparseable_denies (s : String) (now : Nat)
    (h : parseU64 (rustTrim s) = none) :
    check_grace_period (some s) now
      = some (Except.error GraceErr.unparseableTimestamp) := by
  unfold check_grace_period
  dsimp only
  rw [h]

/-- C10, witness: a non-numeric file content is denied. -/
theorem C10_witness :
    check_grace_period (some "not-a-number") 5
      = some (Except.error GraceErr.unparseableTimestamp) :=
  C10_unparseable_denies "not-a-number" 5 rfl

/-! ## C3 -/

/-- C3, counterexample to the claim as stated: an authentically signed,
well-formed token with `expires_at = 100` checked at `now = 100` satisfies
`expires_at ≤ now`, yet `verify_trial_token` accepts it — the code's
expiry test is the strict `now > expires_at`. -/
theorem C3_counterexample :
    (⟨"alice", 0, 100⟩ : TrialToken).expires_at ≤ 100
    ∧ verify_trial_token (fun _ s => decide (s = List.replicate 64 170))
        (encodeTrialToken ⟨"alice", 0, 100⟩)
        (String.mk (List.replicate 128 'a')) 100
      = some (Except.ok ⟨"alice", 0, 100⟩) :=
  ⟨Nat.le_refl 100, rfl⟩

/-- C3, amended: for every authentically signed, well-formed token, the
validator rejects exactly when `expires_at < now` (strictly), and the
rejection carries the day count `(now - expires_at) / 86400`; a token with
`expires_at = now` is accepted. -/
theorem C3_expiry_rejection (V : Json → List Nat → Bool) (tokenMsg : Json)
    (signature_hex : String) (now : Nat) (sig_bytes : List Nat)
    (token : TrialToken)
    (hdec : hexDecode (rustTrim signature_hex) = some sig_bytes)
    (hlen : sig_bytes.length = 64) (hV : V tokenMsg sig_bytes = true)
    (htok : decodeTrialToken tokenMsg = some token) :
    (token.expires_at < now →
      verify_trial_token V tokenMsg signature_hex now
        = some (Except.error (VerifyErr.trialExpired
            ((now - token.expires_at) / 86400))))
    ∧ (token.expires_at = now →
      verify_trial_token V tokenMsg signature_hex now
        = some (Except.ok token)) := by
  unfold verify_trial_token
  rw [hdec]
  dsimp only
  rw [if_pos hlen, if_pos hV, htok]
  dsimp only
  constructor
  · intro he
    rw [if_pos he, checkedSub_eq_of_le (Nat.le_of_lt he)]
    rfl
  · intro he
    rw [if_neg (by omega), checkedSub_eq_of_le (by omega)]
    rfl

/-- C3, witness: a token expired by 199900 s is rejected with
`199900 / 86400 = 2` days, and the boundary `expires_at = now` is
accepted. -/
theorem C3_witness :
    verify_trial_token (fun _ s => decide (s = List.replicate 64 170))
      (encodeTrialToken ⟨"alice", 0, 100⟩)
      (String.mk (List.replicate 128 'a')) 200000
    = some (Except.error (VerifyErr.trialExpired 2)) :=
  (C3_expiry_rejection (fun _ s => decide (s = List.replicate 64 170))
    (encodeTrialToken ⟨"alice", 0, 100⟩)
    (String.mk (List.replicate 128 'a')) 200000 (List.replicate 64 170)
    ⟨"alice", 0, 100⟩ rfl rfl (by decide) rfl).1 (by norm_num)

/-! ## C9 -/

/-- C9: for every verifier, token, signature text and current time, the
consumer's `verify_trial_token` never panics: both `u64` subtractions of
the expiry arithmetic (`now - expires_at` and `expires_at - now`,
modelled by `checkedSub`) sit under the guard established by the
`now > expires_at` comparison, so neither underflows. -/
theorem C9_no_underflow (V : Json → List Nat → Bool) (tokenMsg : Json)
    (signature_hex : String) (now : Nat) :
    (verify_trial_token V tokenMsg signature_hex now).isSome :=
  verify_trial_token_isSome V tokenMsg signature_hex now

/-! ## C4 -/

/-- C4: whenever the authority is reachable and its decoded response
carries `revoked = true`, the consumer's decision is deny (`some false`),
for every stored `LastOnlineCheck` file state — in particular one well
inside the grace window — and for every token text, signature text and
verifier, a structurally perfect, unexpired, authentically signed token
included. -/
theorem C4_revoked_denies (V : Json → List Nat → Bool) (tokenMsg : Json)
    (signature_hex : String) (data : Json) (file : Option String)
    (now : Nat) (hrev : jsonGetBool data "revoked" = some true) :
    consumer_decision V tokenMsg signature_hex
      (AuthorityResponse.response data) file now = some false := by
  unfold consumer_decision
  have hs := verify_trial_token_isSome V tokenMsg signature_hex now
  cases h : verify_trial_token V tokenMsg signature_hex now with
  | none => rw [h] at hs; simp at hs
  | some r =>
    cases r with
    | error e => rfl
    | ok token =>
      dsimp only
      unfold check_revocation
      dsimp only
      rw [hrev]
      rfl

/-- C4, witness: a verifying, unexpired token (`expires_at = 100`,
`now = 50`) with a grace file freshly stamped (`"0"` is within 24 h of
`now = 50`) is still denied when the reachable authority reports
revocation. -/
theorem C4_witness :
    consumer_decision (fun _ s => decide (s = List.replicate 64 170))
      (encodeTrialToken ⟨"alice", 0, 100⟩)
      (String.mk (List.replicate 128 'a'))
      (AuthorityResponse.response (Json.obj [("revoked", Json.bool true)]))
      (some "0") 50 = some false :=
  C4_revoked_denies (fun _ s => decide (s = List.replicate 64 170))
    (encodeTrialToken ⟨"alice", 0, 100⟩)
    (String.mk (List.replicate 128 'a'))
    (Json.obj [("revoked", Json.bool true)]) (some "0") 50 rfl

/-! ## C5 -/

/-- C5, counterexample to the claim as stated: changing the first byte of
the stored signature hex from `'a'` to `'A'` is a one-byte modification of
the text, yet `hex::decode` is case-insensitive, so the altered text
decodes to the very same 64 signature bytes, the cryptographic check still
passes, and the token is parsed and accepted exactly as with the original
text — not rejected with an AuthenticityError. -/
theorem C5_counterexample :
    String.mk ('A' :: List.replicate 127 'a')
      ≠ String.mk (List.replicate 128 'a')
    ∧ verify_trial_token (fun _ s => decide (s = List.replicate 64 170))
        (encodeTrialToken ⟨"alice", 0, 100⟩)
        (String.mk (List.replicate 128 'a')) 50
      = some (Except.ok ⟨"alice", 0, 100⟩)
    ∧ verify_trial_token (fun _ s => decide (s = List.replicate 64 170))
        (encodeTrialToken ⟨"alice", 0, 100⟩)
        (String.mk ('A' :: List.replicate 127 'a')) 50
      = some (Except.ok ⟨"alice", 0, 100⟩) :=
  ⟨by decide, rfl, rfl⟩

/-- C5, amended: a modified signature text never reaches the token parse
with a bad signature — if the trimmed text no longer decodes as hex the
result is the `Invalid signature hex` FormatError; if it decodes to other
than 64 bytes, the `Signature must be 64 bytes` FormatError; and if it
decodes to 64 bytes that the ed25519 check rejects, the AuthenticityError
`Signature verification failed` — in every case an error, never an
accepted token (a modification that merely changes a hex digit's case
decodes to the same bytes and behaves as the original text). -/
theorem C5_tamper_cases (V : Json → List Nat → Bool) (tokenMsg : Json)
    (s : String) (now : Nat) :
    (hexDecode (rustTrim s) = none →
      verify_trial_token V tokenMsg s now
        = some (Except.error VerifyErr.invalidSignatureHex))
    ∧ (∀ b, hexDecode (rustTrim s) = some b → b.length ≠ 64 →
      verify_trial_token V tokenMsg s now
        = some (Except.error VerifyErr.signatureNot64Bytes))
    ∧ (∀ b, hexDecode (rustTrim s) = some b → b.length = 64 →
      V tokenMsg b = false →
      verify_trial_token V tokenMsg s now
        = some (Except.error VerifyErr.signatureVerificationFailed)) := by
  refine ⟨fun h => ?_, fun b hb hlen => ?_, fun b hb hlen hV => ?_⟩
  · unfold verify_trial_token
    rw [h]
  · unfold verify_trial_token
    rw [hb]
    dsimp only
    rw [if_neg hlen]
  · unfold verify_trial_token
    rw [hb]
    dsimp only
    rw [if_pos hlen, if_neg (by simp [hV])]

/-- C5, witness: the three tamper outcomes at concrete inputs — non-hex
text (`"zz"`), wrong length (`"aa"`), and 64 rejected bytes. -/
theorem C5_witness :
    verify_trial_token (fun _ _ => false)
      (encodeTrialToken ⟨"alice", 0, 100⟩) "zz" 50
      = some (Except.error VerifyErr.invalidSignatureHex)
    ∧ verify_trial_token (fun _ _ => false)
      (encodeTrialToken ⟨"alice", 0, 100⟩) "aa" 50
      = some (Except.error VerifyErr.signatureNot64Bytes)
    ∧ verify_trial_token (fun _ _ => false)
      (encodeTrialToken ⟨"alice", 0, 100⟩)
      (String.mk (List.replicate 128 'a')) 50
      = some (Except.error VerifyErr.signatureVerificationFailed) :=
  ⟨(C5_tamper_cases (fun _ _ => false) (encodeTrialToken ⟨"alice", 0, 100⟩)
      "zz" 50).1 rfl,
   (C5_tamper_cases (fun _ _ => false) (encodeTrialToken ⟨"alice", 0, 100⟩)
      "aa" 50).2.1 [170] rfl (by decide),
   (C5_tamper_cases (fun _ _ => false) (encodeTrialToken ⟨"alice", 0, 100⟩)
      (String.mk (List.replicate 128 'a')) 50).2.2
      (List.replicate 64 170) rfl rfl rfl⟩

/-! ## C6 -/

/-- C6: an unreachable authority and a reachable-but-malformed response
take the very same fallback — the decision is `check_grace_period`'s
result in both cases (a total function: no crash) — and when no prior
successful check exists (no stored file) that fallback denies with the
no-previous-check error. -/
theorem C6_unreachable_fallback (file : Option String) (now : Nat) :
    (check_revocation AuthorityResponse.unreachable file now).1
      = liftGrace (check_grace_period file now)
    ∧ (check_revocation AuthorityResponse.malformed file now).1
      = liftGrace (check_grace_period file now)
    ∧ (check_revocation AuthorityResponse.unreachable none now).1
      = some (Except.error (RevErr.grace GraceErr.noPreviousCheck))
    ∧ (check_revocation AuthorityResponse.malformed none now).1
      = some (Except.error (RevErr.grace GraceErr.noPreviousCheck)) :=
  ⟨rfl, rfl, rfl, rfl⟩

/-! ## C7 -/

/-- C7: for every token — any `user_id` string and any pair of `u64`
timestamps — the consumer's decode of the authority's canonical encoding
returns the token unchanged: `decode (encode t) = some t`. -/
theorem C7_roundTrip (t : TrialToken) (h1 : t.issued_at < 2 ^ 64)
    (h2 : t.expires_at < 2 ^ 64) :
    decodeTrialToken (encodeTrialToken t) = some t := by
  cases t with
  | mk u i e =>
    simp only [decodeTrialToken, encodeTrialToken, jsonLookup, asStr, asU64]
    simp at h1 h2
    simp [asStr, asU64, h1, h2]

/-- C7, witness: the round trip at a concrete token. -/
theorem C7_witness :
    decodeTrialToken (encodeTrialToken ⟨"alice", 3, 9⟩)
      = some ⟨"alice", 3, 9⟩ :=
  C7_roundTrip ⟨"alice", 3, 9⟩ (by norm_num) (by norm_num)

/-! ## C8 -/

/-- C8: whenever `issue_trial` returns a grant, the grant's token value is
the canonical encoding of the token with the requested `user_id`,
`issued_at = now` and `expires_at = now + TRIAL_DURATION` where
`TRIAL_DURATION` is the fixed constant `14 * 24 * 60 * 60` seconds, its
signature is the signing function applied to exactly that encoding, and
`expires_at > issued_at` holds at issuance. -/
theorem C8_issue_builds (S : Json → List Nat) (now : Nat)
    (user_id : String) (g : Json × List Nat)
    (h : issue_trial S now user_id = some g) :
    g.1 = encodeTrialToken ⟨user_id, now, now + TRIAL_DURATION⟩
    ∧ g.2 = S g.1
    ∧ TRIAL_DURATION = 14 * 24 * 60 * 60
    ∧ now < now + TRIAL_DURATION := by
  unfold issue_trial at h
  by_cases hb : now + TRIAL_DURATION < 2 ^ 64
  · rw [if_pos hb] at h
    cases h
    refine ⟨rfl, rfl, rfl, ?_⟩
    have hd : 0 < TRIAL_DURATION := by norm_num [TRIAL_DURATION]
    omega
  · rw [if_neg hb] at h
    cases h

/-- C8, witness: the grant issued for `"bob"` at time 0 with the trivial
signer. -/
theorem C8_witness :
    (encodeTrialToken ⟨"bob", 0, 0 + TRIAL_DURATION⟩, ([] : List Nat)).1
      = encodeTrialToken ⟨"bob", 0, 0 + TRIAL_DURATION⟩
    ∧ (encodeTrialToken ⟨"bob", 0, 0 + TRIAL_DURATION⟩, ([] : List Nat)).2
      = (fun _ => [])
          (encodeTrialToken ⟨"bob", 0, 0 + TRIAL_DURATION⟩,
            ([] : List Nat)).1
    ∧ TRIAL_DURATION = 14 * 24 * 60 * 60
    ∧ 0 < 0 + TRIAL_DURATION :=
  C8_issue_builds (fun _ => []) 0 "bob"
    (encodeTrialToken ⟨"bob", 0, 0 + TRIAL_DURATION⟩, ([] : List Nat)) rfl

end LicenseDemo
